import Mathlib

/-!
Shallow embedding of two Angular components of the IdentityManager.Imx
front end:

* `EditFkComponent` (foreign-key picker/editor, `edit-fk.component.ts`):
  value writing, candidate-list loading and pagination, table selection.
* `WorkflowMultiActionComponent` (bulk approval row builder,
  `workflow-multi-action.component.ts`): per-request bulk-item
  construction and validation status.

Asynchronous collaborators (the entity update call, the paged candidate
fetch, the step service, the extended-entity lookup) are modelled as
oracles passed in as parameters; observable side effects (entity update
calls, change-notification emissions, error-handler invocations, fetches)
are recorded as an event trace returned next to the new state.
-/


namespace EditFk

/-- `ValueStruct<string>` from imx-qbm-dbts: a key / display pair.
`none` models a TS `undefined` field. -/
structure ValueStruct where
  DataValue : Option String
  DisplayValue : Option String
  deriving DecidableEq, Repr

/-- One foreign-key relation of the column (`IForeignKeyInfo`):
only the fields the component reads. -/
structure FkRelation where
  TableName : String
  ColumnName : String
  deriving DecidableEq, Repr

/-- A selectable candidate (`candidate.interface.ts`). -/
structure Candidate where
  DataValue : Option String
  DisplayValue : Option String
  displayLong : Option String
  deriving DecidableEq, Repr

/-- `CollectionLoadParameters`: paging / search / filter state.
`filter` is a list of opaque filter entries (a present list is truthy in
TS even when empty, so truthiness of the filter is `Option.isSome`). -/
structure CollectionLoadParameters where
  PageSize : Nat
  StartIndex : Nat
  search : Option String
  filter : Option (List String)
  deriving DecidableEq, Repr

/-- A partial update of `CollectionLoadParameters`, modelling the object
spread `{ ...this.parameters, ...newState }`: an outer `some` means the
property is present in `newState` (and overrides, even when its inner
value is `none`, i.e. explicitly `undefined`). -/
structure ParamsPatch where
  PageSize : Option Nat := none
  StartIndex : Option Nat := none
  search : Option (Option String) := none
  filter : Option (Option (List String)) := none
  deriving DecidableEq, Repr

/-- Object-spread merge `{ ...p, ...patch }`. -/
def mergeParams (p : CollectionLoadParameters) (patch : ParamsPatch) :
    CollectionLoadParameters :=
  { PageSize := patch.PageSize.getD p.PageSize
    StartIndex := patch.StartIndex.getD p.StartIndex
    search := patch.search.getD p.search
    filter := patch.filter.getD p.filter }

/-- A patch that carries every property of `p`, modelling the call
`updateCandidates(this.parameters, ...)` which passes the whole live
parameter object as `newState`. -/
def paramsAsPatch (p : CollectionLoadParameters) : ParamsPatch :=
  { PageSize := some p.PageSize
    StartIndex := some p.StartIndex
    search := some p.search
    filter := some p.filter }

/-- One column of a fetched entity row: only its `Value` is read. -/
structure EntityColumn where
  Value : Option String
  deriving DecidableEq, Repr

/-- A fetched entity row (`EntityData`): the fields `updateCandidates`
reads.  `Columns` is `none` when the row carries no column map. -/
structure EntityData where
  Columns : Option (List (String × EntityColumn))
  Keys : Option (List String)
  Display : Option String
  LongDisplay : Option String
  deriving DecidableEq, Repr

/-- `entityData.Columns?.[name]`: look a column up by name, propagating
an absent column map. -/
def getEntityColumn (cols : Option (List (String × EntityColumn)))
    (name : String) : Option EntityColumn :=
  cols.bind fun l => (l.find? fun p => p.1 = name).map Prod.snd

/-- The paged collection returned by `selectedTable.Get`. -/
structure CandidateCollection where
  TotalCount : Nat
  hasHierarchy : Bool
  Entities : Option (List EntityData)
  deriving DecidableEq, Repr

/-- JS truthiness of an optional string (`undefined`, `null` and `""`
are falsy). -/
def strTruthy : Option String → Bool
  | none => false
  | some s => s ≠ ""

/-- The editor state: the fields of `EditFkComponent` the modelled
methods read or write, together with the bound column container's value,
display and editability.  The transient case in which the control holds
raw typed text (a string) rather than a value struct is not represented:
every modelled write path stores a value struct (or null) in the control. -/
structure FkState where
  controlValue : Option ValueStruct
  columnValue : Option String
  columnDisplay : Option String
  canEdit : Bool
  loading : Bool
  isWriting : Bool
  dirty : Bool
  candidates : Option (List Candidate)
  savedCandidates : Option (List Candidate)
  candidatesTotalCount : Nat
  isHierarchical : Bool
  parameters : CollectionLoadParameters
  selectedTable : Option FkRelation
  fkRelations : List FkRelation
  deriving DecidableEq, Repr

/-- `pageSize = 20` (readonly field of the component). -/
def pageSize : Nat := 20

/-- Observable effects of a method run, in order of occurrence. -/
inductive FkEvent where
  /-- `columnContainer.updateValueStruct(value)` was invoked. -/
  | updateCalled (value : ValueStruct)
  /-- `valueHasChanged.emit({ value, forceEmit })`. -/
  | valueChangedEmitted (value : Option ValueStruct) (forceEmit : Bool)
  /-- `errorHandler.handleError(error)`. -/
  | errorHandled (error : Nat)
  /-- `selectedTable.Get(parameters)` was invoked. -/
  | getCalled (parameters : CollectionLoadParameters)
  deriving DecidableEq, Repr

/-- Outcome of the external `columnContainer.updateValueStruct` call:
either the column holds a (possibly server-normalised) new value and
display afterwards, or the call throws. -/
inductive UpdateOutcome where
  | ok (newValue : Option String) (newDisplay : Option String)
  | err (error : Nat)
  deriving DecidableEq, Repr

/-- `getValueStruct()`: the current column value as a value struct, or
`undefined` when the column value is falsy. -/
def getValueStruct (s : FkState) : Option ValueStruct :=
  if strTruthy s.columnValue then
    some { DataValue := s.columnValue
           DisplayValue := some (s.columnDisplay.getD "") }
  else
    none

/-- `equal(value, value2)`: key-and-display equality when both are
truthy, otherwise both must be nullish. -/
def equal (value value2 : Option ValueStruct) : Bool :=
  match value, value2 with
  | some a, some b => a.DataValue = b.DataValue ∧ a.DisplayValue = b.DisplayValue
  | none, none => true
  | _, _ => false

/-- `writeValue(value)`: no-op unless the column is editable and the new
value differs from the current one; otherwise delegate to the external
update call, re-read the column into the control, and emit the change
notification with `forceEmit`; an update error goes to the global error
handler; `loading` and `isWriting` are cleared in the `finally` block. -/
def writeValue (upd : UpdateOutcome) (s : FkState) (value : ValueStruct) :
    FkState × List FkEvent :=
  if ¬ s.canEdit ∨ equal (getValueStruct s) (some value) then
    (s, [])
  else
    match upd with
    | .err e =>
      ({ s with loading := false, isWriting := false },
       [.updateCalled value, .errorHandled e])
    | .ok newValue newDisplay =>
      let s1 : FkState :=
        { s with columnValue := newValue, columnDisplay := newDisplay
                 loading := true, isWriting := true }
      let valueAfterWrite := getValueStruct s1
      let s2 :=
        if equal s1.controlValue valueAfterWrite then s1
        else { s1 with controlValue := valueAfterWrite }
      ({ s2 with dirty := true, loading := false, isWriting := false },
       [.updateCalled value, .valueChangedEmitted (some value) true])

/-- The candidate built from one fetched row inside `updateCandidates`:
key derivation (dynamic multi-table key vs explicit parent column vs
primary key) and the detail line (email for the Person table). -/
def mkCandidate (multipleFkRelations : Bool) (parentColumnName : String)
    (identityRelatedTable : Bool) (entityData : EntityData) : Candidate :=
  let detailValue : Option String :=
    match getEntityColumn entityData.Columns "DefaultEmailAddress" with
    | some c => if identityRelatedTable then c.Value
                else some (entityData.LongDisplay.getD "")
    | none => some (entityData.LongDisplay.getD "")
  let key : Option String :=
    if multipleFkRelations then
      match getEntityColumn entityData.Columns "XObjectKey" with
      | some c => c.Value
      | none => none
    else
      match getEntityColumn entityData.Columns parentColumnName with
      | some c => c.Value
      | none =>
        match entityData.Keys with
        | some (k :: _) => some k
        | _ => some ""
  { DataValue := key
    DisplayValue := entityData.Display
    displayLong := detailValue }

/-- `fkRelations[0].ColumnName` as read inside `updateCandidates`. -/
def firstRelationColumnName (s : FkState) : String :=
  match s.fkRelations with
  | r :: _ => r.ColumnName
  | [] => ""

/-- `updateCandidates(newState, isCheck, concatCandidates)`: merge the
load parameters, fetch a page from the selected table (the fetch result
is the oracle `get`), derive candidates, and either append them to or
replace the current list; `loading` is cleared in the `finally` block.
Without a selected table nothing happens. -/
def updateCandidates (get : CollectionLoadParameters → Option CandidateCollection)
    (s : FkState) (patch : ParamsPatch) (concatCandidates : Bool) :
    FkState × List FkEvent :=
  match s.selectedTable with
  | none => (s, [])
  | some tbl =>
    let p := mergeParams s.parameters patch
    match get p with
    | none => ({ s with parameters := p, loading := false }, [.getCalled p])
    | some coll =>
      let multipleFkRelations := s.fkRelations.length > 1
      let identityRelatedTable := tbl.TableName = "Person"
      let newCandidates : Option (List Candidate) :=
        coll.Entities.map (List.map
          (mkCandidate multipleFkRelations (firstRelationColumnName s)
            identityRelatedTable))
      let cands : List Candidate :=
        if concatCandidates then
          s.candidates.getD [] ++ newCandidates.getD []
        else
          newCandidates.getD []
      ({ s with parameters := p
                candidatesTotalCount := coll.TotalCount
                isHierarchical := coll.hasHierarchy
                candidates := some cands
                savedCandidates := some cands
                loading := false },
       [.getCalled p])

/-- `onScroll(event)`: when the open panel is within 10 px of its bottom,
no load is in progress and more pages exist, advance the start index by
one page and fetch-and-append; otherwise do nothing. -/
def onScroll (get : CollectionLoadParameters → Option CandidateCollection)
    (s : FkState) (offsetHeight scrollTop scrollHeight : Int) :
    FkState × List FkEvent :=
  if offsetHeight + scrollTop ≥ scrollHeight - 10 ∧
      s.loading = false ∧
      s.candidatesTotalCount > pageSize + s.parameters.StartIndex then
    let s1 :=
      { s with parameters :=
          { s.parameters with StartIndex := s.parameters.StartIndex + pageSize } }
    updateCandidates get s1 (paramsAsPatch s1.parameters) true
  else
    (s, [])

/-- `removeAssignment()`: put `{ DataValue: undefined }` into the control,
write it through `writeValue`, and — when a search or filter is active —
reset the start index to 0, clear search and filter and re-fetch. -/
def removeAssignment (upd : UpdateOutcome)
    (get : CollectionLoadParameters → Option CandidateCollection)
    (s : FkState) : FkState × List FkEvent :=
  let value : ValueStruct := { DataValue := none, DisplayValue := none }
  let s1 := { s with controlValue := some value }
  let r1 := writeValue upd s1 value
  if strTruthy r1.1.parameters.search ∨ r1.1.parameters.filter.isSome then
    let s3 :=
      { r1.1 with parameters := { r1.1.parameters with StartIndex := 0 } }
    let r2 :=
      updateCandidates get s3 { search := some none, filter := some none } false
    (r2.1, r1.2 ++ r2.2)
  else
    r1

/-- `setControlValue()` (the table-selection part plus the control
update): with a dynamic foreign key (more than one relation) and a truthy
column value, select the relation whose `TableName` matches the table
encoded in the value's object key (`DbObjectKey.FromXml`, an external
library call modelled by the oracle `tableOfXml`), falling back to the
first relation; then put the current value struct into the control. -/
def setControlValue (tableOfXml : String → String) (s : FkState) : FkState :=
  let s1 :=
    match s.fkRelations with
    | [] => s
    | first :: _ =>
      let table : Option FkRelation :=
        if s.fkRelations.length > 1 ∧ strTruthy s.columnValue then
          s.fkRelations.find? fun fkr =>
            fkr.TableName = tableOfXml (s.columnValue.getD "")
        else
          none
      { s with selectedTable := some (table.getD first) }
  { s1 with controlValue := getValueStruct s1 }

/-- The dialog result (`ForeignKeySelection`): the chosen table and the
chosen candidates (at most one is used). -/
structure ForeignKeySelection where
  table : FkRelation
  candidates : Option (List ValueStruct)
  deriving DecidableEq, Repr

/-- The `afterClosed` handler of `editAssignment`'s dialog: on a
selection, drop the candidate list and adopt the chosen table; then, only
when the column is editable, put the chosen value (or an empty value
struct) into the control and write it through `writeValue`. -/
def dialogAfterClosed (upd : UpdateOutcome) (s : FkState)
    (selection : Option ForeignKeySelection) : FkState × List FkEvent :=
  match selection with
  | none => (s, [])
  | some sel =>
    let s1 := { s with candidates := none, selectedTable := some sel.table }
    if ¬ s1.canEdit then
      (s1, [])
    else
      let value : ValueStruct :=
        match sel.candidates with
        | some (c :: _) => c
        | _ => { DataValue := none, DisplayValue := none }
      let s2 := { s1 with controlValue := some value }
      writeValue upd s2 value

/-- Candidate key derivation as the claim words it: for a multi-table
relation the row's XObjectKey column value (undefined when absent); for a
single-table relation the explicit parent column's value when that column
is present, otherwise the row's first primary-key value. -/
def candidateKeySpec (multipleFkRelations : Bool) (parentColumnName : String)
    (entityData : EntityData) : Option String :=
  if multipleFkRelations then
    (getEntityColumn entityData.Columns "XObjectKey").bind fun c => c.Value
  else
    match getEntityColumn entityData.Columns parentColumnName with
    | some c => c.Value
    | none => (entityData.Keys.getD []).head?

/-- Shared concrete parameters for witnesses. -/
def sampleParams : CollectionLoadParameters :=
  { PageSize := 20, StartIndex := 0, search := none, filter := none }

/-- Shared concrete foreign-key relation for witnesses. -/
def sampleRelation : FkRelation := { TableName := "T", ColumnName := "UID_T" }

/-- Shared concrete editor state for witnesses: an editable editor bound
to a single-relation column holding value "A" displayed "DA". -/
def sampleState : FkState :=
  { controlValue := some { DataValue := some "A", DisplayValue := some "DA" }
    columnValue := some "A"
    columnDisplay := some "DA"
    canEdit := true
    loading := false
    isWriting := false
    dirty := false
    candidates := some []
    savedCandidates := none
    candidatesTotalCount := 0
    isHierarchical := false
    parameters := sampleParams
    selectedTable := some sampleRelation
    fkRelations := [sampleRelation] }

/-- The sample state with a read-only column. -/
def sampleStateRO : FkState := { sampleState with canEdit := false }

/-- Concrete fetched row for the C4 witness. -/
def scrollRow : EntityData :=
  { Columns := some [("UID_T", { Value := some "k2" })]
    Keys := some ["pk2"]
    Display := some "r2"
    LongDisplay := none }

/-- Concrete second-page collection for the C4 witness. -/
def scrollColl : CandidateCollection :=
  { TotalCount := 25, hasHierarchy := false, Entities := some [scrollRow] }

/-- Concrete fetch oracle for the C4 witness: the server answers the
second page only. -/
def scrollGet : CollectionLoadParameters → Option CandidateCollection :=
  fun p => if p.StartIndex = 20 then some scrollColl else none

/-- Concrete scrolled state for the C4 witness: one loaded candidate out
of 25. -/
def scrollState : FkState :=
  { sampleState with
      candidates := some [{ DataValue := some "k1", DisplayValue := some "r1",
                            displayLong := some "" }]
      candidatesTotalCount := 25 }

/-- Concrete load parameters with an active search for the C5 witness. -/
def searchParams : CollectionLoadParameters :=
  { sampleParams with search := some "abc", StartIndex := 40 }

/-- Concrete state with an active search for the C5 witness. -/
def searchState : FkState :=
  { sampleState with parameters := searchParams }

/-- Dynamic foreign key relations for the C6 witness. -/
def dynRelations : List FkRelation :=
  [{ TableName := "T1", ColumnName := "c1" },
   { TableName := "T2", ColumnName := "c2" }]

/-- Dynamic-key state with an existing value for the C6 witness. -/
def dynState : FkState :=
  { sampleState with fkRelations := dynRelations, columnValue := some "T2",
                     selectedTable := none }

/-- State without a current value for the C6 witness. -/
def noValueState : FkState :=
  { sampleState with columnValue := none, selectedTable := none }

end EditFk

namespace WorkflowMulti

/-- Modelled from the spec: `BulkItemStatus` is an enum of the qbm
library (not under src/); the spec names the values `unknown` and
`valid`; the library's further values are represented by `other`. -/
inductive BulkItemStatus where
  | unknown
  | valid
  | other
  deriving DecidableEq, Repr

/-- A column-dependent reference attached to a bulk item: read-only or
editable, identified by its column name, plus the current-step CDR the
step service may produce. -/
inductive CdrProp where
  | readonlyCdr (column : String)
  | editableCdr (column : String)
  | stepCdr (display : String)
  deriving DecidableEq, Repr

/-- One approval request (`Approval`): the fields `buildSingleItem`
reads. `parameterColumns` is the truthiness of `item.parameterColumns`. -/
structure Approval where
  key : String
  orderStateDisplay : String
  validFromColumn : String
  validUntilColumn : String
  parameterColumns : Bool
  deriving DecidableEq, Repr

/-- The `showValidDate` configuration: which of the two date columns to
show. -/
structure ShowValidDate where
  validFrom : Bool
  validUntil : Bool
  deriving DecidableEq, Repr

/-- The workflow configuration for the custom selection list. -/
structure WorkflowCfg where
  title : String
  placeholder : String
  data : String → List String

/-- `WorkflowActionEdit`: the input data bundle of the component. -/
structure WorkflowActionEdit where
  requests : List Approval
  approve : Bool
  showValidDate : Option ShowValidDate
  workflow : Option WorkflowCfg

/-- Modelled from the spec: `BulkItem` of the qbm library (not under
src/) pairs an entity with its property list and validation status; its
`valid` flag is an externally computed boolean (absent until computed). -/
structure BulkItem where
  entity : Approval
  additionalInfo : String
  properties : List CdrProp
  status : BulkItemStatus
  valid : Option Bool
  customSelectEntities : Option (List String)
  deriving DecidableEq, Repr

/-- The component's asynchronous collaborators: the step service's
current-step CDR and the approval service's extended-entity lookup (its
parameter-category column names, or a failure). -/
structure MultiEnv where
  getCurrentStepCdr : Approval → Option CdrProp
  getExtendedEntity : String → Except Nat (List String)

/-- `buildSingleItem(item)`: assemble one bulk item — optional
valid-from / valid-until read-only CDRs, the current-step CDR prepended
when present, then the asynchronously fetched parameter columns
(editable only in approve mode), and the custom selection entities when
a workflow configuration exists. -/
def buildSingleItem (env : MultiEnv) (data : WorkflowActionEdit)
    (item : Approval) : Except Nat BulkItem :=
  let props0 : List CdrProp :=
    match data.showValidDate with
    | none => []
    | some svd =>
      (if svd.validFrom then [CdrProp.readonlyCdr item.validFromColumn] else []) ++
      (if svd.validUntil then [CdrProp.readonlyCdr item.validUntilColumn] else [])
  let props1 : List CdrProp :=
    match env.getCurrentStepCdr item with
    | some step => step :: props0
    | none => props0
  let propsFinal : Except Nat (List CdrProp) :=
    if item.parameterColumns then
      match env.getExtendedEntity item.key with
      | .error e => .error e
      | .ok cols =>
        .ok (props1 ++ cols.map fun pCol =>
          if data.approve then CdrProp.editableCdr pCol else CdrProp.readonlyCdr pCol)
    else
      .ok props1
  match propsFinal with
  | .error e => .error e
  | .ok props2 =>
    .ok { entity := item
          additionalInfo := item.orderStateDisplay
          properties := props2
          status := BulkItemStatus.valid
          valid := none
          customSelectEntities := data.workflow.map fun w => w.data item.key }

/-- `Promise.all(this.data.requests.map(async (item) => this.buildSingleItem(item)))`:
every item is built in input order; any single failure fails the whole
build. -/
def buildAll (env : MultiEnv) (data : WorkflowActionEdit) :
    List Approval → Except Nat (List BulkItem)
  | [] => .ok []
  | item :: rest =>
    match buildSingleItem env data item with
    | .error e => .error e
    | .ok b =>
      match buildAll env data rest with
      | .error e => .error e
      | .ok bs => .ok (b :: bs)

/-- The observable outcome of `ngOnInit`: whether `this.requests` got
assigned (and to what), and the busy indicator's begin / end calls. -/
structure InitOutcome where
  requests : Option (List BulkItem)
  busyBegun : Bool
  busyEnded : Bool

/-- `ngOnInit()`: begin the busy indicator, build all items, and end the
busy indicator in the `finally` block; on any failure `this.requests`
stays unassigned. -/
def ngOnInitMulti (env : MultiEnv) (data : WorkflowActionEdit) : InitOutcome :=
  match buildAll env data data.requests with
  | .ok items => { requests := some items, busyBegun := true, busyEnded := true }
  | .error _ => { requests := none, busyBegun := true, busyEnded := true }

/-- `validateItem(bulkItem)`: recompute the status from the item's
`valid` flag. -/
def validateItem (bulkItem : BulkItem) : BulkItem :=
  { bulkItem with
      status := if bulkItem.valid.getD false then BulkItemStatus.valid
                else BulkItemStatus.unknown }

/-- First concrete approval request for witnesses. -/
def sampleApproval1 : Approval :=
  { key := "k1", orderStateDisplay := "o1", validFromColumn := "vf1",
    validUntilColumn := "vu1", parameterColumns := false }

/-- Second concrete approval request (with parameter columns). -/
def sampleApproval2 : Approval :=
  { key := "k2", orderStateDisplay := "o2", validFromColumn := "vf2",
    validUntilColumn := "vu2", parameterColumns := true }

/-- Concrete collaborators for witnesses: a step CDR for every request
and a one-column extended entity per key. -/
def sampleMultiEnv : MultiEnv :=
  { getCurrentStepCdr := fun _ => some (CdrProp.stepCdr "step")
    getExtendedEntity := fun k => .ok ["p_" ++ k] }

/-- Concrete input bundle for witnesses: two requests, approve mode,
valid-from shown. -/
def sampleData : WorkflowActionEdit :=
  { requests := [sampleApproval1, sampleApproval2], approve := true
    showValidDate := some { validFrom := true, validUntil := false }
    workflow := none }

/-- The row built from the first sample request. -/
def builtItem1 : BulkItem :=
  { entity := sampleApproval1, additionalInfo := "o1"
    properties := [CdrProp.stepCdr "step", CdrProp.readonlyCdr "vf1"]
    status := BulkItemStatus.valid, valid := none
    customSelectEntities := none }

/-- The row built from the second sample request. -/
def builtItem2 : BulkItem :=
  { entity := sampleApproval2, additionalInfo := "o2"
    properties := [CdrProp.stepCdr "step", CdrProp.readonlyCdr "vf2",
                   CdrProp.editableCdr "p_k2"]
    status := BulkItemStatus.valid, valid := none
    customSelectEntities := none }

/-- Collaborators whose extended-entity lookup always fails. -/
def failEnv : MultiEnv :=
  { getCurrentStepCdr := fun _ => none
    getExtendedEntity := fun _ => .error 3 }

/-- Input bundle whose single request needs the failing lookup. -/
def failData : WorkflowActionEdit :=
  { requests := [sampleApproval2], approve := false
    showValidDate := none, workflow := none }

end WorkflowMulti

namespace EditFk

/-- `equal` agrees with propositional equality of optional value structs
(a value struct consists exactly of the two compared fields). -/
theorem equal_eq_true_iff (a b : Option ValueStruct) : equal a b = true ↔ a = b := by
  cases a with
  | none => cases b <;> simp [equal]
  | some x =>
    cases b with
    | none => simp [equal]
    | some y =>
      cases x
      cases y
      simp [equal, ValueStruct.mk.injEq]

/-- `writeValue` never touches the load parameters. -/
theorem writeValue_parameters (upd : UpdateOutcome) (s : FkState)
    (value : ValueStruct) :
    (writeValue upd s value).1.parameters = s.parameters := by
  unfold writeValue
  split
  · rfl
  · cases upd with
    | err e => rfl
    | ok newValue newDisplay =>
      simp only []
      split <;> rfl

/-- `writeValue` never touches the selected table. -/
theorem writeValue_selectedTable (upd : UpdateOutcome) (s : FkState)
    (value : ValueStruct) :
    (writeValue upd s value).1.selectedTable = s.selectedTable := by
  unfold writeValue
  split
  · rfl
  · cases upd with
    | err e => rfl
    | ok newValue newDisplay =>
      simp only []
      split <;> rfl

/-- The current column value is never `equal` to the empty value struct:
a truthy column value yields a struct with a present DataValue, a falsy
one yields `undefined`. -/
theorem equal_getValueStruct_empty (s : FkState) :
    equal (getValueStruct s)
      (some { DataValue := none, DisplayValue := none }) = false := by
  unfold getValueStruct
  split
  · next h =>
    cases hv : s.columnValue with
    | none =>
      rw [hv] at h
      simp [strTruthy] at h
    | some v => simp [equal, hv]
  · simp [equal]

/-- The event trace of a `writeValue` call on a value different from the
current one: empty when not editable, otherwise determined by the update
outcome. -/
theorem writeValue_trace (upd : UpdateOutcome) (s : FkState)
    (value : ValueStruct)
    (hNeq : equal (getValueStruct s) (some value) = false) :
    (writeValue upd s value).2 =
      if s.canEdit = true then
        (match upd with
         | .err e => [FkEvent.updateCalled value, FkEvent.errorHandled e]
         | .ok _ _ => [FkEvent.updateCalled value,
                       FkEvent.valueChangedEmitted (some value) true])
      else [] := by
  by_cases hEdit : s.canEdit = true
  · rw [if_pos hEdit]
    unfold writeValue
    rw [if_neg (by simp [hEdit, hNeq])]
    cases upd <;> rfl
  · rw [if_neg hEdit]
    unfold writeValue
    rw [if_pos (Or.inl hEdit)]

/-- Merging the live parameter object into itself changes nothing. -/
theorem mergeParams_self (p : CollectionLoadParameters) :
    mergeParams p (paramsAsPatch p) = p := rfl

/-- With a selected table, `updateCandidates` always sets the merged
parameters and issues exactly one fetch with them, whatever the fetch
returns. -/
theorem updateCandidates_params_events
    (get : CollectionLoadParameters → Option CandidateCollection)
    (s : FkState) (patch : ParamsPatch) (concat : Bool) (tbl : FkRelation)
    (hTbl : s.selectedTable = some tbl) :
    (updateCandidates get s patch concat).1.parameters =
        mergeParams s.parameters patch ∧
    (updateCandidates get s patch concat).2 =
        [FkEvent.getCalled (mergeParams s.parameters patch)] := by
  refine ⟨?_, ?_⟩ <;>
    cases hg : get (mergeParams s.parameters patch) <;>
      simp [updateCandidates, hTbl, hg]

/-- C2: writing a value that is equal (same DataValue and DisplayValue)
to the editor's current column value performs no entity-update call,
emits no valueHasChanged event, and leaves the whole editor state (control
value, candidates, guard flags) unchanged. -/
theorem writeValue_noop_on_equal_value (upd : UpdateOutcome) (s : FkState)
    (value : ValueStruct)
    (h : equal (getValueStruct s) (some value) = true) :
    writeValue upd s value = (s, []) := by
  simp [writeValue, h]

/-- Witness for C2 at a concrete editable state whose current value
matches the written value. -/
theorem writeValue_noop_on_equal_value_witness :
    equal (getValueStruct sampleState)
        (some { DataValue := some "A", DisplayValue := some "DA" }) = true ∧
    writeValue (.ok none none) sampleState
        { DataValue := some "A", DisplayValue := some "DA" } = (sampleState, []) :=
  ⟨by decide, writeValue_noop_on_equal_value _ _ _ (by decide)⟩

/-- C1 counterexample: writing ⟨"B","DB"⟩ over current value ⟨"A","DA"⟩
with the server normalising the column to ⟨"C","DC"⟩: the change
notification emitted by `writeValue` carries the originally requested
value ⟨"B","DB"⟩, while the re-read value placed into the control is
⟨"C","DC"⟩ — so the claim that the notification carries the final
re-read value (not the requested one) fails on the code. -/
theorem writeValue_emits_requested_value_cex :
    (writeValue (.ok (some "C") (some "DC")) sampleState
        { DataValue := some "B", DisplayValue := some "DB" }).2 =
      [.updateCalled { DataValue := some "B", DisplayValue := some "DB" },
       .valueChangedEmitted
         (some { DataValue := some "B", DisplayValue := some "DB" }) true] ∧
    (writeValue (.ok (some "C") (some "DC")) sampleState
        { DataValue := some "B", DisplayValue := some "DB" }).1.controlValue =
      some { DataValue := some "C", DisplayValue := some "DC" } ∧
    ({ DataValue := some "B", DisplayValue := some "DB" } : ValueStruct) ≠
      { DataValue := some "C", DisplayValue := some "DC" } := by
  decide

/-- C1 (amended): with an editable column and a value different from the
current one, writeValue delegates to the external entity-update call; on
success it re-reads the resulting column value into the control and
raises valueHasChanged with forceEmit carrying the originally requested
value; if the update call throws, the error is forwarded to the injected
global error handler and no change notification is raised; loading and
isWriting are reset on both paths. -/
theorem writeValue_update_error_paths (s : FkState) (value : ValueStruct)
    (e : Nat) (nv nd : Option String)
    (hEdit : s.canEdit = true)
    (hNeq : equal (getValueStruct s) (some value) = false) :
    writeValue (.err e) s value =
      ({ s with loading := false, isWriting := false },
       [.updateCalled value, .errorHandled e]) ∧
    (writeValue (.ok nv nd) s value).2 =
      [.updateCalled value, .valueChangedEmitted (some value) true] ∧
    (writeValue (.ok nv nd) s value).1.controlValue =
      getValueStruct { s with columnValue := nv, columnDisplay := nd } ∧
    (writeValue (.ok nv nd) s value).1.loading = false ∧
    (writeValue (.ok nv nd) s value).1.isWriting = false := by
  have hguard :
      ¬ (¬ s.canEdit = true ∨ equal (getValueStruct s) (some value) = true) := by
    simp [hEdit, hNeq]
  refine ⟨?_, ?_, ?_, ?_, ?_⟩
  · unfold writeValue
    rw [if_neg hguard]
  · unfold writeValue
    rw [if_neg hguard]
  · unfold writeValue
    rw [if_neg hguard]
    simp only []
    split
    · next h => exact (equal_eq_true_iff _ _).mp h
    · rfl
  · unfold writeValue
    rw [if_neg hguard]
  · unfold writeValue
    rw [if_neg hguard]

/-- Witness for the amended C1 at a concrete editable state. -/
theorem writeValue_update_error_paths_witness :
    sampleState.canEdit = true ∧
    equal (getValueStruct sampleState)
        (some { DataValue := some "B", DisplayValue := some "DB" }) = false ∧
    writeValue (.err 7) sampleState
        { DataValue := some "B", DisplayValue := some "DB" } =
      ({ sampleState with loading := false, isWriting := false },
       [.updateCalled { DataValue := some "B", DisplayValue := some "DB" },
        .errorHandled 7]) :=
  ⟨by decide, by decide,
   (writeValue_update_error_paths sampleState
      { DataValue := some "B", DisplayValue := some "DB" } 7
      (some "C") (some "DC") (by decide) (by decide)).1⟩

/-- C10: with a non-editable column, writeValue returns immediately —
no update call, no emission, no state change at all; the dialog-selection
handler adopts the chosen table and drops the candidate list but performs
no write-back (no control update, no entity update, no emission). -/
theorem noneditable_no_writeback (upd : UpdateOutcome) (s : FkState)
    (value : ValueStruct) (sel : ForeignKeySelection)
    (h : s.canEdit = false) :
    writeValue upd s value = (s, []) ∧
    dialogAfterClosed upd s (some sel) =
      ({ s with candidates := none, selectedTable := some sel.table }, []) := by
  constructor
  · simp [writeValue, h]
  · simp [dialogAfterClosed, h]

/-- Witness for C10 at a concrete read-only state. -/
theorem noneditable_no_writeback_witness :
    sampleStateRO.canEdit = false ∧
    writeValue (.ok none none) sampleStateRO
        { DataValue := some "B", DisplayValue := some "DB" } = (sampleStateRO, []) ∧
    dialogAfterClosed (.ok none none) sampleStateRO
        (some { table := sampleRelation, candidates := none }) =
      ({ sampleStateRO with candidates := none,
                            selectedTable := some sampleRelation }, []) :=
  ⟨by decide,
   (noneditable_no_writeback (.ok none none) sampleStateRO
      { DataValue := some "B", DisplayValue := some "DB" }
      { table := sampleRelation, candidates := none } (by decide)).1,
   (noneditable_no_writeback (.ok none none) sampleStateRO
      { DataValue := some "B", DisplayValue := some "DB" }
      { table := sampleRelation, candidates := none } (by decide)).2⟩

/-- C3: the candidate built from a fetched row carries exactly the key
the claim describes, whenever the single-table primary-key fallback is
not taken on a row without primary keys (there the code yields the empty
string rather than an undefined first key). -/
theorem candidate_key_derivation (multipleFkRelations : Bool)
    (parentColumnName : String) (identityRelatedTable : Bool)
    (entityData : EntityData)
    (h : multipleFkRelations = true ∨
         (getEntityColumn entityData.Columns parentColumnName).isSome = true ∨
         entityData.Keys.getD [] ≠ []) :
    (mkCandidate multipleFkRelations parentColumnName identityRelatedTable
        entityData).DataValue =
      candidateKeySpec multipleFkRelations parentColumnName entityData := by
  cases multipleFkRelations with
  | true =>
    simp only [mkCandidate, candidateKeySpec, if_true]
    cases getEntityColumn entityData.Columns "XObjectKey" <;> simp
  | false =>
    simp only [Bool.false_eq_true, false_or] at h
    cases hpc : getEntityColumn entityData.Columns parentColumnName with
    | some c => simp [mkCandidate, candidateKeySpec, hpc]
    | none =>
      rcases h with h | h
      · rw [hpc] at h
        simp at h
      · cases hk : entityData.Keys with
        | none =>
          rw [hk] at h
          simp at h
        | some ks =>
          cases ks with
          | nil =>
            rw [hk] at h
            simp at h
          | cons k ks' => simp [mkCandidate, candidateKeySpec, hpc, hk]

/-- Witness for C3: a single-table row whose parent column is present. -/
theorem candidate_key_derivation_witness :
    ((getEntityColumn
        (some [("UID_T", ({ Value := some "k1" } : EntityColumn))]) "UID_T").isSome
      = true) ∧
    (mkCandidate false "UID_T" false
        { Columns := some [("UID_T", { Value := some "k1" })]
          Keys := some ["pk1"]
          Display := some "row one"
          LongDisplay := none }).DataValue =
      candidateKeySpec false "UID_T"
        { Columns := some [("UID_T", { Value := some "k1" })]
          Keys := some ["pk1"]
          Display := some "row one"
          LongDisplay := none } :=
  ⟨by decide,
   candidate_key_derivation false "UID_T" false
     { Columns := some [("UID_T", { Value := some "k1" })]
       Keys := some ["pk1"]
       Display := some "row one"
       LongDisplay := none }
     (Or.inr (Or.inl (by decide)))⟩

/-- C4: on a scroll event over an open panel within 10 px of its bottom
with no load in progress, if the total candidate count exceeds the start
index plus the page size, the next page (start index advanced by the page
size) is fetched and its rows are appended to the existing candidate
list; otherwise (no further pages) the state is untouched and no fetch is
issued. -/
theorem onScroll_append_next_page
    (get : CollectionLoadParameters → Option CandidateCollection)
    (s : FkState) (offsetHeight scrollTop scrollHeight : Int)
    (tbl : FkRelation) (cs : List Candidate) (coll : CandidateCollection)
    (es : List EntityData)
    (hGeo : offsetHeight + scrollTop ≥ scrollHeight - 10)
    (hLoad : s.loading = false)
    (hTbl : s.selectedTable = some tbl)
    (hCand : s.candidates = some cs)
    (hGet : get { s.parameters with
                  StartIndex := s.parameters.StartIndex + pageSize } = some coll)
    (hEnt : coll.Entities = some es) :
    onScroll get s offsetHeight scrollTop scrollHeight =
      if s.candidatesTotalCount > pageSize + s.parameters.StartIndex then
        ({ s with
             parameters :=
               { s.parameters with
                   StartIndex := s.parameters.StartIndex + pageSize }
             candidatesTotalCount := coll.TotalCount
             isHierarchical := coll.hasHierarchy
             candidates := some (cs ++ es.map
               (mkCandidate (decide (s.fkRelations.length > 1))
                 (firstRelationColumnName s) (decide (tbl.TableName = "Person"))))
             savedCandidates := some (cs ++ es.map
               (mkCandidate (decide (s.fkRelations.length > 1))
                 (firstRelationColumnName s) (decide (tbl.TableName = "Person"))))
             loading := false },
         [.getCalled { s.parameters with
             StartIndex := s.parameters.StartIndex + pageSize }])
      else
        (s, []) := by
  by_cases hMore : s.candidatesTotalCount > pageSize + s.parameters.StartIndex
  · rw [if_pos hMore]
    unfold onScroll
    rw [if_pos ⟨hGeo, hLoad, hMore⟩]
    simp only [updateCandidates, mergeParams_self, hTbl, hGet, hEnt, hCand]
    rfl
  · rw [if_neg hMore]
    unfold onScroll
    rw [if_neg (fun hc => hMore hc.2.2)]

/-- Witness for C4: scrolling to the bottom with 25 total and 20 per page
appends the fetched second page. -/
theorem onScroll_append_next_page_witness :
    ((50 : Int) + 60 ≥ 100 - 10) ∧
    scrollState.loading = false ∧
    scrollState.selectedTable = some sampleRelation ∧
    scrollGet { scrollState.parameters with
                StartIndex := scrollState.parameters.StartIndex + pageSize } =
      some scrollColl ∧
    onScroll scrollGet scrollState 50 60 100 =
      ({ scrollState with
           parameters :=
             { scrollState.parameters with
                 StartIndex := scrollState.parameters.StartIndex + pageSize }
           candidatesTotalCount := scrollColl.TotalCount
           isHierarchical := scrollColl.hasHierarchy
           candidates := some
             ([{ DataValue := some "k1", DisplayValue := some "r1",
                 displayLong := some "" }] ++
              [scrollRow].map
                (mkCandidate (decide (scrollState.fkRelations.length > 1))
                  (firstRelationColumnName scrollState)
                  (decide (sampleRelation.TableName = "Person"))))
           savedCandidates := some
             ([{ DataValue := some "k1", DisplayValue := some "r1",
                 displayLong := some "" }] ++
              [scrollRow].map
                (mkCandidate (decide (scrollState.fkRelations.length > 1))
                  (firstRelationColumnName scrollState)
                  (decide (sampleRelation.TableName = "Person"))))
           loading := false },
       [.getCalled { scrollState.parameters with
           StartIndex := scrollState.parameters.StartIndex + pageSize }]) :=
  ⟨by decide, by decide, by decide, by decide,
   (onScroll_append_next_page scrollGet scrollState 50 60 100 sampleRelation
      [{ DataValue := some "k1", DisplayValue := some "r1",
         displayLong := some "" }]
      scrollColl [scrollRow]
      (by decide) (by decide) (by decide) (by decide) (by decide)
      (by decide)).trans (if_pos (by decide))⟩

/-- C5: removeAssignment writes the empty value (every entity update it
triggers carries an absent DataValue, and with an editable column the
update call with the empty value struct is made); when a search or
filter was active it additionally resets the start index to 0, clears
search and filter and re-fetches from the first page, and with no active
search or filter it issues no fetch at all. -/
theorem removeAssignment_clears_and_refetches
    (upd : UpdateOutcome)
    (get : CollectionLoadParameters → Option CandidateCollection)
    (s : FkState) (tbl : FkRelation)
    (hTbl : s.selectedTable = some tbl) :
    (∀ v, FkEvent.updateCalled v ∈ (removeAssignment upd get s).2 →
        v.DataValue = none) ∧
    (s.canEdit = true →
      FkEvent.updateCalled { DataValue := none, DisplayValue := none } ∈
        (removeAssignment upd get s).2) ∧
    (if strTruthy s.parameters.search ∨ s.parameters.filter.isSome then
        (removeAssignment upd get s).1.parameters =
          { s.parameters with StartIndex := 0, search := none, filter := none } ∧
        FkEvent.getCalled
            { s.parameters with StartIndex := 0, search := none, filter := none } ∈
          (removeAssignment upd get s).2
      else ∀ p, FkEvent.getCalled p ∉ (removeAssignment upd get s).2) := by
  have hval : equal
      (getValueStruct
        { s with controlValue := some { DataValue := none, DisplayValue := none } })
      (some { DataValue := none, DisplayValue := none }) = false :=
    equal_getValueStruct_empty _
  have htr := writeValue_trace upd
    { s with controlValue := some { DataValue := none, DisplayValue := none } }
    { DataValue := none, DisplayValue := none } hval
  have hpar : (writeValue upd
      { s with controlValue := some { DataValue := none, DisplayValue := none } }
      { DataValue := none, DisplayValue := none }).1.parameters = s.parameters :=
    writeValue_parameters _ _ _
  have hsel : (writeValue upd
      { s with controlValue := some { DataValue := none, DisplayValue := none } }
      { DataValue := none, DisplayValue := none }).1.selectedTable = some tbl :=
    (writeValue_selectedTable _ _ _).trans hTbl
  simp only [removeAssignment]
  rw [hpar]
  by_cases hAct : strTruthy s.parameters.search = true ∨
      s.parameters.filter.isSome = true
  · simp only [if_pos hAct]
    obtain ⟨hup, hue⟩ := updateCandidates_params_events get
      { (writeValue upd
          { s with controlValue := some { DataValue := none, DisplayValue := none } }
          { DataValue := none, DisplayValue := none }).1 with
        parameters := { s.parameters with StartIndex := 0 } }
      { search := some none, filter := some none } false tbl hsel
    refine ⟨?_, ?_, ?_, ?_⟩
    · intro v hv
      rw [htr, hue] at hv
      simp only [List.mem_append, List.mem_singleton] at hv
      rcases hv with hv | hv
      · split at hv
        · cases upd <;> simp_all
        · simp at hv
      · simp at hv
    · intro hEdit
      rw [htr, hue]
      rw [if_pos hEdit]
      cases upd <;> simp
    · exact hup
    · rw [htr, hue]
      exact List.mem_append_right _ (by simp [mergeParams])
  · simp only [if_neg hAct]
    refine ⟨?_, ?_, ?_⟩
    · intro v hv
      rw [htr] at hv
      split at hv
      · cases upd <;> simp_all
      · simp at hv
    · intro hEdit
      rw [htr, if_pos hEdit]
      cases upd <;> simp
    · intro p hp
      rw [htr] at hp
      split at hp
      · cases upd <;> simp_all
      · simp at hp

/-- Witness for C5: a state with an active search, editable column and a
selected table. -/
theorem removeAssignment_clears_and_refetches_witness :
    searchState.selectedTable = some sampleRelation ∧
    (if strTruthy searchState.parameters.search ∨
        searchState.parameters.filter.isSome then
        (removeAssignment (.ok none none) scrollGet searchState).1.parameters =
          { searchState.parameters with
            StartIndex := 0, search := none, filter := none } ∧
        FkEvent.getCalled
            { searchState.parameters with
              StartIndex := 0, search := none, filter := none } ∈
          (removeAssignment (.ok none none) scrollGet searchState).2
      else ∀ p, FkEvent.getCalled p ∉
        (removeAssignment (.ok none none) scrollGet searchState).2) :=
  ⟨by decide,
   (removeAssignment_clears_and_refetches (.ok none none) scrollGet searchState
      sampleRelation (by decide)).2.2⟩

/-- C6: after setControlValue, with a dynamic foreign key (more than one
relation) and a non-empty current value, the selected table is the
relation whose TableName matches the table encoded in the value's object
key; with no current value the first relation of the list is selected. -/
theorem setControlValue_table_selection (tableOfXml : String → String)
    (s : FkState) :
    (∀ r, s.fkRelations.length > 1 → strTruthy s.columnValue = true →
      s.fkRelations.find? (fun fkr =>
        fkr.TableName = tableOfXml (s.columnValue.getD "")) = some r →
      (setControlValue tableOfXml s).selectedTable = some r) ∧
    (∀ first rest, s.columnValue = none → s.fkRelations = first :: rest →
      (setControlValue tableOfXml s).selectedTable = some first) := by
  constructor
  · intro r hLen hVal hFind
    cases hfk : s.fkRelations with
    | nil =>
      rw [hfk] at hLen
      simp at hLen
    | cons first rest =>
      rw [hfk] at hLen hFind
      have hLen2 : 0 < rest.length := by
        simp only [List.length_cons] at hLen
        omega
      simp [setControlValue, hfk, hLen2, hVal, hFind]
  · intro first rest hNone hfk
    simp [setControlValue, hfk, hNone, strTruthy]

/-- Witness for C6: a two-table dynamic key whose value encodes "T2",
and a no-value state over a single relation. -/
theorem setControlValue_table_selection_witness :
    (setControlValue id dynState).selectedTable =
      some { TableName := "T2", ColumnName := "c2" } ∧
    (setControlValue id noValueState).selectedTable = some sampleRelation :=
  ⟨(setControlValue_table_selection id dynState).1
     { TableName := "T2", ColumnName := "c2" } (by decide) (by decide) (by decide),
   (setControlValue_table_selection id noValueState).2 sampleRelation []
     (by decide) (by decide)⟩

end EditFk

namespace WorkflowMulti

/-- A successful `buildAll` run yields one item per input request, in
input order, each the successful build of the request at its position. -/
theorem buildAll_ok_spec (env : MultiEnv) (data : WorkflowActionEdit) :
    ∀ (l : List Approval) (items : List BulkItem),
      buildAll env data l = .ok items →
      items.length = l.length ∧
      ∀ i a, l.get? i = some a →
        ∃ b, items.get? i = some b ∧ buildSingleItem env data a = .ok b := by
  intro l
  induction l with
  | nil =>
    intro items h
    simp only [buildAll] at h
    injection h with h2
    subst h2
    simp
  | cons a l ih =>
    intro items h
    simp only [buildAll] at h
    cases hb : buildSingleItem env data a with
    | error e =>
      rw [hb] at h
      simp at h
    | ok b =>
      rw [hb] at h
      cases hrest : buildAll env data l with
      | error e =>
        rw [hrest] at h
        simp at h
      | ok bs =>
        rw [hrest] at h
        injection h with h2
        subst h2
        obtain ⟨ihlen, ihidx⟩ := ih bs hrest
        constructor
        · simp [ihlen]
        · intro i x hx
          cases i with
          | zero =>
            simp only [List.get?_cons_zero] at hx ⊢
            injection hx with hx2
            subst hx2
            exact ⟨b, rfl, hb⟩
          | succ i =>
            simp only [List.get?_cons_succ] at hx ⊢
            exact ihidx i x hx

/-- C7: when ngOnInit assigns the bulk rows, there are exactly as many
rows as input requests, and the row at position i is the one built from
the request at position i. -/
theorem ngOnInit_builds_one_row_per_request (env : MultiEnv)
    (data : WorkflowActionEdit) (items : List BulkItem)
    (h : (ngOnInitMulti env data).requests = some items) :
    items.length = data.requests.length ∧
    ∀ i a, data.requests.get? i = some a →
      ∃ b, items.get? i = some b ∧ buildSingleItem env data a = .ok b := by
  unfold ngOnInitMulti at h
  cases hb : buildAll env data data.requests with
  | error e =>
    rw [hb] at h
    simp at h
  | ok its =>
    rw [hb] at h
    simp only [Option.some.injEq] at h
    subst h
    exact buildAll_ok_spec env data _ _ hb

/-- Witness for C7: two requests build exactly two rows in order. -/
theorem ngOnInit_builds_one_row_per_request_witness :
    (ngOnInitMulti sampleMultiEnv sampleData).requests =
      some [builtItem1, builtItem2] ∧
    ([builtItem1, builtItem2] : List BulkItem).length =
      sampleData.requests.length :=
  ⟨by decide,
   (ngOnInit_builds_one_row_per_request sampleMultiEnv sampleData
      [builtItem1, builtItem2] (by decide)).1⟩

/-- C8: a bulk item's status after validateItem is `valid` exactly when
the item's valid flag was observed true; validateItem only ever assigns
`valid` or `unknown`; and a freshly built item starts at `valid`. -/
theorem validateItem_status_spec :
    (∀ b : BulkItem,
      ((validateItem b).status = BulkItemStatus.valid ↔ b.valid = some true)) ∧
    (∀ b : BulkItem,
      (validateItem b).status = BulkItemStatus.valid ∨
      (validateItem b).status = BulkItemStatus.unknown) ∧
    (∀ (env : MultiEnv) (data : WorkflowActionEdit) (item : Approval)
        (bi : BulkItem),
      buildSingleItem env data item = .ok bi →
      bi.status = BulkItemStatus.valid) := by
  refine ⟨?_, ?_, ?_⟩
  · intro b
    cases hv : b.valid with
    | none => simp [validateItem, hv]
    | some t => cases t <;> simp [validateItem, hv]
  · intro b
    cases hg : b.valid.getD false <;> simp [validateItem, hg]
  · intro env data item bi h
    simp only [buildSingleItem] at h
    split at h
    · simp at h
    · injection h with h2
      subst h2
      rfl

/-- Witness for C8 at concrete items: a true flag yields `valid`, a
missing flag yields `unknown`, and a freshly built sample row is
`valid`. -/
theorem validateItem_status_spec_witness :
    (validateItem { builtItem1 with valid := some true }).status =
      BulkItemStatus.valid ∧
    builtItem1.status = BulkItemStatus.valid :=
  ⟨(validateItem_status_spec.1 { builtItem1 with valid := some true }).mpr rfl,
   validateItem_status_spec.2.2 sampleMultiEnv sampleData sampleApproval1
     builtItem1 rfl⟩

/-- A failing build of any member request fails the whole buildAll. -/
theorem buildAll_error_of_mem (env : MultiEnv) (data : WorkflowActionEdit) :
    ∀ (l : List Approval) (a : Approval) (e : Nat),
      a ∈ l → buildSingleItem env data a = .error e →
      ∃ e2, buildAll env data l = .error e2 := by
  intro l
  induction l with
  | nil =>
    intro a e ha hbuild
    simp at ha
  | cons x l ih =>
    intro a e ha hbuild
    cases hx : buildSingleItem env data x with
    | error e3 => exact ⟨e3, by simp [buildAll, hx]⟩
    | ok b =>
      rcases List.mem_cons.mp ha with h | h
      · subst h
        rw [hbuild] at hx
        simp at hx
      · obtain ⟨e4, he⟩ := ih a e h hbuild
        exact ⟨e4, by simp [buildAll, hx, he]⟩

/-- C9: ngOnInit begins and always ends the busy indicator, whatever the
build does; and a single failing per-item fetch aborts the whole build
(the requests stay unassigned). -/
theorem ngOnInit_busy_guard (env : MultiEnv) (data : WorkflowActionEdit) :
    (ngOnInitMulti env data).busyBegun = true ∧
    (ngOnInitMulti env data).busyEnded = true ∧
    (∀ a e, a ∈ data.requests → buildSingleItem env data a = .error e →
      (ngOnInitMulti env data).requests = none) := by
  refine ⟨?_, ?_, ?_⟩
  · unfold ngOnInitMulti
    split <;> rfl
  · unfold ngOnInitMulti
    split <;> rfl
  · intro a e ha hb
    obtain ⟨e2, he⟩ := buildAll_error_of_mem env data data.requests a e ha hb
    unfold ngOnInitMulti
    rw [he]

/-- Witness for C9: the busy indicator ends and the build aborts when the
one request's fetch fails. -/
theorem ngOnInit_busy_guard_witness :
    (ngOnInitMulti failEnv failData).busyEnded = true ∧
    sampleApproval2 ∈ failData.requests ∧
    buildSingleItem failEnv failData sampleApproval2 = .error 3 ∧
    (ngOnInitMulti failEnv failData).requests = none :=
  ⟨(ngOnInit_busy_guard failEnv failData).2.1, by decide, rfl,
   (ngOnInit_busy_guard failEnv failData).2.2 sampleApproval2 3
     (by decide) rfl⟩

end WorkflowMulti
